import Mathlib

/-!
Verification of the virtual-timeline playback engine of the ecg-frontend
repository.  The definitions below are a shallow embedding of the
TypeScript class VirtualPlayerController (file src/unnamed/part_003) and of
the data model it operates on.  Times are embedded as rationals, the
attached HTML video element as an optional record of the two properties the
controller reads and writes (currentTime, paused), and the callback
registries as event lists produced by each operation.  Parts of the engine
that live in files missing from src (ECGTimelineMapper,
VirtualTimelineManager, VirtualSegmentController) are modelled from the
spec and marked as such in their doc comments.
-/

namespace ECG

/-- One mapped range of the edited sequence, as in the data model of the
spec and the segment records consumed by VirtualPlayerController. -/
structure VirtualSegment where
  id : String
  virtualStartTime : ℚ
  virtualEndTime : ℚ
  realStartTime : ℚ
  realEndTime : ℚ
  isEnabled : Bool
deriving Repr, DecidableEq

/-- The virtual timeline: a flat segment list plus a total duration. -/
structure VirtualTimeline where
  segments : List VirtualSegment
  duration : ℚ
deriving Repr, DecidableEq

/-- The two properties of the real HTML video element that the controller
reads and writes: its clock and its paused flag. -/
structure VideoState where
  currentTime : ℚ
  paused : Bool
deriving Repr, DecidableEq

/-- Modelled from the spec: the frame-data bundle built by
ECGTimelineMapper.createVirtualFrameData (the mapper file is not under
src); it bundles the virtual time, the real time and the display
timestamp for frame-callback consumers. -/
structure VirtualFrameData where
  virtualTime : ℚ
  realTime : ℚ
  displayTimestamp : ℚ
deriving Repr, DecidableEq

/-- Observable notifications emitted to the subscriber registries of the
controller (frame, play, pause, stop, seek, time-update, timeline-change
and the dedicated MotionText overlay-sync channel). -/
inductive VPEvent where
  | played : VPEvent
  | pausedEv : VPEvent
  | stoppedEv : VPEvent
  | seeked : ℚ → VPEvent
  | timeUpdate : ℚ → VPEvent
  | motionTextSeek : ℚ → VPEvent
  | frame : ℚ → ℚ → VPEvent
  | timelineChange : VPEvent
deriving Repr, DecidableEq

/-- The session state of VirtualPlayerController (fields of the class in
src/unnamed/part_003).  The timeline field stands for the timeline
returned by timelineMapper.timelineManager.getTimeline(); the segTimeline
field stands for the timeline last handed to the segment controller via
setTimeline. -/
structure ControllerState where
  video : Option VideoState
  timeline : VirtualTimeline
  segTimeline : VirtualTimeline
  isRVFCActive : Bool
  rvfcHandle : Option Nat
  currentVirtualTime : ℚ
  isPlaying : Bool
  playbackRate : ℚ
  lastFrameTime : ℚ
  frameCount : Nat
  virtualTimeStartTimestamp : ℚ
  virtualTimePausedAt : ℚ
  isVirtualTimeRunning : Bool
  currentActiveSegment : Option VirtualSegment
  lastVirtualTimeProcessed : ℚ
  enableFramePrecision : Bool
  frameProcessingDebounceMs : ℚ
deriving Repr, DecidableEq

/-- getDuration reads the duration of the mapper timeline. -/
def getDuration (s : ControllerState) : ℚ :=
  s.timeline.duration

/-- getCurrentTime returns the current virtual time. -/
def getCurrentTime (s : ControllerState) : ℚ :=
  s.currentVirtualTime

/-- The membership test used by findActiveSegmentAtVirtualTime: the
segment is enabled and its half-open virtual range contains the time. -/
def segContains (seg : VirtualSegment) (t : ℚ) : Bool :=
  seg.isEnabled && decide (seg.virtualStartTime ≤ t) && decide (t < seg.virtualEndTime)

/-- findActiveSegmentAtVirtualTime from src/unnamed/part_003: the first
enabled segment whose half-open virtual range contains the time, if any. -/
def findActiveSegmentAtVirtualTime (tl : VirtualTimeline) (virtualTime : ℚ) : Option VirtualSegment :=
  tl.segments.find? (fun seg => segContains seg virtualTime)

/-- updateVideoPositionFromVirtualTime from src/unnamed/part_003: with an
active segment, reposition the real element by proportional progress when
the drift exceeds 100 ms and resume it when it is paused while playback
is active; with no active segment, pause the real element. -/
def updateVideoPositionFromVirtualTime (s : ControllerState) : ControllerState :=
  match s.video with
  | none => s
  | some v =>
    match s.currentActiveSegment with
    | some seg =>
      let segmentProgress := (s.currentVirtualTime - seg.virtualStartTime) /
        (seg.virtualEndTime - seg.virtualStartTime)
      let targetRealTime := seg.realStartTime +
        (seg.realEndTime - seg.realStartTime) * segmentProgress
      let v1 := if decide ((1 : ℚ)/10 < |v.currentTime - targetRealTime|) then
          { v with currentTime := targetRealTime } else v
      let v2 := if v1.paused && s.isPlaying then { v1 with paused := false } else v1
      { s with video := some v2 }
    | none =>
      if v.paused then s else { s with video := some { v with paused := true } }

/-- seek from src/unnamed/part_003: silently returns when no video is
attached; otherwise clamps the requested virtual time into the range
from 0 to the duration, re-bases the wall-clock reference when the
virtual clock is running, repositions the video, and notifies the seek,
time-update and MotionText overlay-sync subscribers with the clamped
value.  The TypeScript method is synchronous and returns void; it is
embedded in Except because a TypeScript method may throw, and this one
never does. -/
def seek (s : ControllerState) (virtualTime now : ℚ) :
    Except String (ControllerState × List VPEvent) :=
  match s.video with
  | none => Except.ok (s, [])
  | some _ =>
    let cvt := max 0 (min virtualTime (getDuration s))
    let s1 := { s with currentVirtualTime := cvt }
    let s2 := if s1.isVirtualTimeRunning then
        { s1 with virtualTimePausedAt := cvt, virtualTimeStartTimestamp := now }
      else s1
    let s3 := updateVideoPositionFromVirtualTime s2
    Except.ok (s3, [VPEvent.seeked cvt, VPEvent.timeUpdate cvt, VPEvent.motionTextSeek cvt])

/-- startVirtualTimeProgression from src/unnamed/part_003: records the
monotonic wall-clock start reference and the virtual time at that
moment. -/
def startVirtualTimeProgression (s : ControllerState) (now : ℚ) : ControllerState :=
  { s with isVirtualTimeRunning := true, virtualTimeStartTimestamp := now,
           virtualTimePausedAt := s.currentVirtualTime }

/-- play from src/unnamed/part_003: throws when no video is attached;
otherwise starts the virtual-time progression, sets the playing flag and
notifies the play subscribers. -/
def play (s : ControllerState) (now : ℚ) :
    Except String (ControllerState × List VPEvent) :=
  match s.video with
  | none => Except.error "Video not attached"
  | some _ =>
    let s1 := startVirtualTimeProgression s now
    let s2 := { s1 with isPlaying := true }
    Except.ok (s2, [VPEvent.played])

/-- pauseVirtualTimeProgression from src/unnamed/part_003. -/
def pauseVirtualTimeProgression (s : ControllerState) : ControllerState :=
  if s.isVirtualTimeRunning then
    { s with virtualTimePausedAt := s.currentVirtualTime, isVirtualTimeRunning := false }
  else s

/-- stopVirtualTimeProgression from src/unnamed/part_003. -/
def stopVirtualTimeProgression (s : ControllerState) : ControllerState :=
  { s with isVirtualTimeRunning := false, virtualTimeStartTimestamp := 0,
           virtualTimePausedAt := 0 }

/-- stop from src/unnamed/part_003: resets virtual time to 0, clears
active-segment tracking and pauses the real element. -/
def stop (s : ControllerState) : ControllerState × List VPEvent :=
  match s.video with
  | none => (s, [])
  | some v =>
    let s1 := stopVirtualTimeProgression s
    let s2 := { s1 with video := some { v with paused := true }, isPlaying := false,
                        currentVirtualTime := 0, currentActiveSegment := none,
                        lastVirtualTimeProcessed := -1 }
    (s2, [VPEvent.stoppedEv])

/-- updateContinuousVirtualTime from src/unnamed/part_003: when the
virtual clock is running and playback is active, recompute the virtual
time from the wall-clock elapsed-time formula and clamp it above by the
timeline duration. -/
def updateContinuousVirtualTime (s : ControllerState) (now : ℚ) : ControllerState :=
  if !s.isVirtualTimeRunning || !s.isPlaying then s
  else
    let elapsedSeconds := (now - s.virtualTimeStartTimestamp) / 1000
    let cvt := s.virtualTimePausedAt + elapsedSeconds * s.playbackRate
    { s with currentVirtualTime := min cvt (getDuration s) }

/-- pauseAtEnd from src/unnamed/part_003: freezes the virtual clock,
pauses the real element, sets the virtual time to the total duration,
clears the active segment and notifies time-update, overlay-sync and
pause subscribers. -/
def pauseAtEnd (s : ControllerState) : ControllerState × List VPEvent :=
  match s.video with
  | none => (s, [])
  | some v =>
    let s1 := pauseVirtualTimeProgression s
    let s2 := { s1 with isPlaying := false, video := some { v with paused := true } }
    let d := getDuration s2
    let s3 := { s2 with currentVirtualTime := d, currentActiveSegment := none }
    (s3, [VPEvent.timeUpdate d, VPEvent.motionTextSeek d, VPEvent.pausedEv])

/-- handleSegmentChange from src/unnamed/part_003: records the new active
segment. -/
def handleSegmentChange (s : ControllerState) (newSegment : Option VirtualSegment) :
    ControllerState :=
  { s with currentActiveSegment := newSegment }

/-- The real-element clock as read by the frame handler after the
reposition step (0 when no video is attached, a case the frame handler
has already excluded). -/
def videoClockOrZero (s : ControllerState) : ℚ :=
  match s.video with
  | none => 0
  | some v => v.currentTime

/-- handleVideoFrame from src/unnamed/part_003: the per-frame update.  It
returns early when no video is attached or when the frame-rate debounce
rejects the frame; otherwise it advances the continuous virtual time,
handles reaching the end of the timeline, re-derives the active segment,
repositions the real element and notifies frame, time-update and
overlay-sync subscribers. -/
def handleVideoFrame (s : ControllerState) (now : ℚ) : ControllerState × List VPEvent :=
  match s.video with
  | none => (s, [])
  | some _ =>
    if s.enableFramePrecision && decide (now - s.lastFrameTime < s.frameProcessingDebounceMs) then
      (s, [])
    else
      let s1 := updateContinuousVirtualTime s now
      if getDuration s1 ≤ s1.currentVirtualTime then pauseAtEnd s1
      else
        let active := findActiveSegmentAtVirtualTime s1.timeline s1.currentVirtualTime
        let s2 := if active ≠ s1.currentActiveSegment then handleSegmentChange s1 active else s1
        let s3 := updateVideoPositionFromVirtualTime s2
        let s4 := { s3 with lastFrameTime := now,
                            lastVirtualTimeProcessed := s3.currentVirtualTime,
                            frameCount := s3.frameCount + 1 }
        (s4, [VPEvent.frame s3.currentVirtualTime (videoClockOrZero s3),
              VPEvent.timeUpdate s3.currentVirtualTime,
              VPEvent.motionTextSeek s3.currentVirtualTime])

/-- stopRVFC from src/unnamed/part_003: cancels the pending frame
callback handle and deactivates the frame loop. -/
def stopRVFC (s : ControllerState) : ControllerState :=
  { s with rvfcHandle := none, isRVFCActive := false }

/-- detachVideo from src/unnamed/part_003: stops the frame loop, removes
the element listeners and drops the video reference; a no-op when no
video is attached. -/
def detachVideo (s : ControllerState) : ControllerState :=
  match s.video with
  | none => s
  | some _ => { (stopRVFC s) with video := none }

/-- The requestAnimationFrame fallback callback body from
src/unnamed/part_003 (fallbackToRAF): it runs the frame handler and
re-schedules itself only while a video is attached and the frame loop is
active.  The Boolean component records whether it re-scheduled. -/
def rafCallbackStep (s : ControllerState) (timestamp : ℚ) :
    ControllerState × List VPEvent × Bool :=
  match s.video with
  | some _ =>
    if s.isRVFCActive then
      let r := handleVideoFrame s timestamp
      (r.1, r.2, true)
    else (s, [], false)
  | none => (s, [], false)

/-- Modelled from the spec: ECGTimelineMapper.virtualToReal is not under
src (only its tests and callers are).  Per section 4.1 of the spec it
locates the enabled segment whose half-open virtual range contains the
time and returns realStartTime plus the offset into the segment; a
negative time, a time exceeding the duration, or a time covered by no
enabled segment yields 0, and the function never throws. -/
def virtualToReal (tl : VirtualTimeline) (virtualTime : ℚ) : ℚ :=
  if virtualTime < 0 ∨ tl.duration < virtualTime then 0
  else
    match tl.segments.find? (fun seg => segContains seg virtualTime) with
    | some seg => seg.realStartTime + (virtualTime - seg.virtualStartTime)
    | none => 0

/-- Result record of the inverse real-to-virtual lookup. -/
structure MappingResult where
  virtualTime : ℚ
  isValid : Bool
deriving Repr, DecidableEq

/-- Modelled from the spec: ECGTimelineMapper.realToVirtual (called
toVirtual by VirtualPlayerController) is not under src.  Per section 4.1
of the spec it is the inverse lookup: a real time inside an enabled
segment maps to the corresponding virtual offset, and a real time that
falls inside a disabled region resolves with isValid false. -/
def toVirtual (tl : VirtualTimeline) (realTime : ℚ) : MappingResult :=
  match tl.segments.find? (fun seg =>
      seg.isEnabled && decide (seg.realStartTime ≤ realTime) &&
        decide (realTime < seg.realEndTime)) with
  | some seg => ⟨seg.virtualStartTime + (realTime - seg.realStartTime), true⟩
  | none => ⟨0, false⟩

/-- isWithinValidSegment from src/unnamed/part_003: whether the real time
lies inside some enabled segment of the mapper timeline (closed range, as
in the source). -/
def isWithinValidSegment (tl : VirtualTimeline) (realTime : ℚ) : Bool :=
  tl.segments.any fun seg =>
    seg.isEnabled && decide (seg.realStartTime ≤ realTime) &&
      decide (realTime ≤ seg.realEndTime)

/-- The first enabled segment after sorting by realStartTime, as computed
in moveToFirstValidSegment of src/unnamed/part_003 (element 0 of the
stable sort, hence the first segment among those with minimal
realStartTime). -/
def firstEnabledByRealStart (segs : List VirtualSegment) : Option VirtualSegment :=
  (segs.filter (fun seg => seg.isEnabled)).foldl
    (fun acc seg =>
      match acc with
      | none => some seg
      | some best => if seg.realStartTime < best.realStartTime then some seg else acc)
    none

/-- moveToFirstValidSegment from src/unnamed/part_003: repositions the
real element to the start of the first enabled segment and, when the
inverse lookup of that position is valid, adopts the resulting virtual
time and notifies time-update and overlay-sync subscribers. -/
def moveToFirstValidSegment (s : ControllerState) : ControllerState × List VPEvent :=
  match s.video with
  | none => (s, [])
  | some v =>
    match firstEnabledByRealStart s.timeline.segments with
    | none => (s, [])
    | some firstSegment =>
      let v1 := { v with currentTime := firstSegment.realStartTime }
      let mapping := toVirtual s.timeline firstSegment.realStartTime
      if mapping.isValid then
        ({ s with video := some v1, currentVirtualTime := mapping.virtualTime },
         [VPEvent.timeUpdate mapping.virtualTime, VPEvent.motionTextSeek mapping.virtualTime])
      else
        ({ s with video := some v1 }, [])

/-- Result record of the segment-controller transition check. -/
structure TransitionResult where
  needsTransition : Bool
  targetTime : Option ℚ
deriving Repr, DecidableEq

/-- Modelled from the spec: VirtualSegmentController.processCurrentTime is
not under src.  Per sections 4.2 and 4.3 of the spec it decides whether
the current real position needs a transition and supplies a target real
time when it does; the target is modelled as the start of the first
enabled segment.  The claims proved below do not depend on the choice of
target, because the caller only writes it into the real-element clock. -/
def processCurrentTime (tl : VirtualTimeline) (realTime : ℚ) : TransitionResult :=
  if isWithinValidSegment tl realTime then ⟨false, none⟩
  else
    match firstEnabledByRealStart tl.segments with
    | some seg => ⟨true, some seg.realStartTime⟩
    | none => ⟨false, none⟩

/-- handleTimelineUpdate from src/unnamed/part_003: hands the rebuilt
timeline to the segment controller, clamps the current virtual time down
to the new duration when it exceeds it, reconciles the real-element
position (through the segment controller while playing, or by moving to
the first enabled segment while paused), notifies the timeline-change
subscribers and resets the processed-time marker.  The validity check and
the first-segment move read the mapper timeline, exactly as the source
does. -/
def handleTimelineUpdate (s : ControllerState) (timeline : VirtualTimeline) :
    ControllerState × List VPEvent :=
  let s1 := { s with segTimeline := timeline }
  let s2 := if timeline.duration < s1.currentVirtualTime then
      { s1 with currentVirtualTime := min s1.currentVirtualTime timeline.duration }
    else s1
  let step3 : ControllerState × List VPEvent :=
    match s2.video with
    | none => (s2, [])
    | some v =>
      if isWithinValidSegment s2.timeline v.currentTime then (s2, [])
      else
        if s2.isPlaying then
          let result := processCurrentTime s2.segTimeline v.currentTime
          match result.targetTime with
          | some target =>
            if result.needsTransition then
              ({ s2 with video := some { v with currentTime := target } }, [])
            else (s2, [])
          | none => (s2, [])
        else moveToFirstValidSegment s2
  let s3 := step3.1
  ({ s3 with lastVirtualTimeProcessed := -1 },
   step3.2 ++ [VPEvent.timelineChange])

/-- The guarded fan-out shared by every notification method of
VirtualPlayerController: each subscriber in the registry is invoked in
order inside its own catch block, so a throwing subscriber is logged and
the remaining subscribers still run.  The first component lists the
subscribers that were invoked, the second the caught exception
messages. -/
def guardedNotify {κ α : Type} (beh : κ → α → Except String Unit) (x : α) :
    List κ → List κ × List String
  | [] => ([], [])
  | cb :: rest =>
    let tail := guardedNotify beh x rest
    match beh cb x with
    | Except.ok _ => (cb :: tail.1, tail.2)
    | Except.error e => (cb :: tail.1, e :: tail.2)

/-- notifyFrameCallbacks from src/unnamed/part_003. -/
def notifyFrameCallbacks {κ : Type} (cbs : List κ)
    (beh : κ → VirtualFrameData → Except String Unit) (frameData : VirtualFrameData) :
    List κ × List String :=
  guardedNotify beh frameData cbs

/-- notifyPlayCallbacks from src/unnamed/part_003. -/
def notifyPlayCallbacks {κ : Type} (cbs : List κ)
    (beh : κ → Unit → Except String Unit) : List κ × List String :=
  guardedNotify beh () cbs

/-- notifyPauseCallbacks from src/unnamed/part_003. -/
def notifyPauseCallbacks {κ : Type} (cbs : List κ)
    (beh : κ → Unit → Except String Unit) : List κ × List String :=
  guardedNotify beh () cbs

/-- notifyStopCallbacks from src/unnamed/part_003. -/
def notifyStopCallbacks {κ : Type} (cbs : List κ)
    (beh : κ → Unit → Except String Unit) : List κ × List String :=
  guardedNotify beh () cbs

/-- notifySeekCallbacks from src/unnamed/part_003. -/
def notifySeekCallbacks {κ : Type} (cbs : List κ)
    (beh : κ → ℚ → Except String Unit) (virtualTime : ℚ) : List κ × List String :=
  guardedNotify beh virtualTime cbs

/-- notifyTimeUpdateCallbacks from src/unnamed/part_003. -/
def notifyTimeUpdateCallbacks {κ : Type} (cbs : List κ)
    (beh : κ → ℚ → Except String Unit) (virtualTime : ℚ) : List κ × List String :=
  guardedNotify beh virtualTime cbs

/-- notifyMotionTextSeekCallbacks from src/unnamed/part_003 (the
dedicated overlay-sync channel). -/
def notifyMotionTextSeekCallbacks {κ : Type} (cbs : List κ)
    (beh : κ → ℚ → Except String Unit) (virtualTime : ℚ) : List κ × List String :=
  guardedNotify beh virtualTime cbs

/-- The timeline-change fan-out inside handleTimelineUpdate of
src/unnamed/part_003, which has the same per-subscriber catch shape. -/
def notifyTimelineChangeCallbacks {κ : Type} (cbs : List κ)
    (beh : κ → VirtualTimeline → Except String Unit) (timeline : VirtualTimeline) :
    List κ × List String :=
  guardedNotify beh timeline cbs

/-- The state observed by a caller after seek returns (the TypeScript
method mutates the controller in place; on the never-taken throwing path
the state is unchanged). -/
def seekState (s : ControllerState) (t now : ℚ) : ControllerState :=
  match seek s t now with
  | Except.ok (s1, _) => s1
  | Except.error _ => s

/-- The notifications emitted by one seek call. -/
def seekEvents (s : ControllerState) (t now : ℚ) : List VPEvent :=
  match seek s t now with
  | Except.ok (_, evs) => evs
  | Except.error _ => []

/-- Runs a burst of seek requests in issue order, propagating the first
error if one were ever produced. -/
def seekRun (s : ControllerState) : List (ℚ × ℚ) → Except String ControllerState
  | [] => Except.ok s
  | (t, now) :: rest =>
    match seek s t now with
    | Except.ok (s1, _) => seekRun s1 rest
    | Except.error e => Except.error e

/-- Whether an Except value is a success. -/
def runIsOk {ε α : Type} : Except ε α → Bool
  | Except.ok _ => true
  | Except.error _ => false

/-- The virtual time of the final state of a seek burst, or -1 on
error. -/
def finalVirtualTime (r : Except String ControllerState) : ℚ :=
  match r with
  | Except.ok s => getCurrentTime s
  | Except.error _ => -1

/-- Replaces the reported clock of the attached real element, leaving all
controller state alone; used to express that a computation does not read
that clock. -/
def setVideoClock (s : ControllerState) (t : ℚ) : ControllerState :=
  match s.video with
  | none => s
  | some v => { s with video := some { v with currentTime := t } }

/-- Data-model invariant of section 3 of the spec for the fields the
proofs need: nonnegative duration and, for every enabled segment,
nonnegative ordered virtual range inside the timeline, ordered real range
and equal virtual and real durations. -/
def WellFormedTimeline (tl : VirtualTimeline) : Prop :=
  0 ≤ tl.duration ∧
  ∀ seg, seg ∈ tl.segments → seg.isEnabled = true →
    0 ≤ seg.virtualStartTime ∧ seg.virtualStartTime ≤ seg.virtualEndTime ∧
    seg.virtualEndTime ≤ tl.duration ∧ seg.realStartTime ≤ seg.realEndTime ∧
    seg.virtualEndTime - seg.virtualStartTime = seg.realEndTime - seg.realStartTime

instance (tl : VirtualTimeline) : Decidable (WellFormedTimeline tl) := by
  unfold WellFormedTimeline; infer_instance

/-- Two segments have disjoint virtual ranges whenever both are
enabled. -/
def disjointRanges (a b : VirtualSegment) : Prop :=
  a.isEnabled = true → b.isEnabled = true →
    (a.virtualEndTime ≤ b.virtualStartTime ∨ b.virtualEndTime ≤ a.virtualStartTime)

instance : DecidableRel disjointRanges := fun a b => by
  unfold disjointRanges; infer_instance

/-- The enabled segments of the timeline cover pairwise disjoint virtual
ranges (a consequence of the sorted-and-contiguous invariant of section 3
of the spec). -/
def EnabledDisjoint (tl : VirtualTimeline) : Prop :=
  tl.segments.Pairwise disjointRanges

instance (tl : VirtualTimeline) : Decidable (EnabledDisjoint tl) := by
  unfold EnabledDisjoint; infer_instance

/-- The invariant of claim C10: the current virtual time always lies
between 0 and the total duration. -/
def ControllerInv (s : ControllerState) : Prop :=
  0 ≤ getCurrentTime s ∧ getCurrentTime s ≤ getDuration s

instance (s : ControllerState) : Decidable (ControllerInv s) := by
  unfold ControllerInv; infer_instance

/-- A single enabled segment covering the whole 10-second source. -/
def seg0to10 : VirtualSegment :=
  ⟨"clip1", 0, 10, 0, 10, true⟩

/-- First segment of the gap example: virtual 0-5 mapped to real 0-5. -/
def segA : VirtualSegment :=
  ⟨"s1", 0, 5, 0, 5, true⟩

/-- Second segment of the gap example: virtual 5-10 mapped to real
10-15, so a real gap is skipped. -/
def segB : VirtualSegment :=
  ⟨"s2", 5, 10, 10, 15, true⟩

/-- The 10-second single-segment timeline of the tests. -/
def tl10 : VirtualTimeline :=
  ⟨[seg0to10], 10⟩

/-- The two-segment timeline with a skipped real gap, as in the tests and
section 8 of the spec. -/
def tlGap : VirtualTimeline :=
  ⟨[segA, segB], 10⟩

/-- A rebuilt, shorter timeline used to exercise timeline shrinkage. -/
def tlShrunk : VirtualTimeline :=
  ⟨[⟨"s1", 0, 2, 0, 2, true⟩], 2⟩

/-- A freshly constructed controller with no video attached, positioned
on the 10-second timeline. -/
def detachedState : ControllerState :=
  ⟨none, tl10, tl10, false, none, 0, false, 1, 0, 0, 0, 0, false, none, -1, true, 16⟩

/-- A controller with an attached (paused) video on the 10-second
timeline. -/
def attachedState : ControllerState :=
  ⟨some ⟨0, true⟩, tl10, tl10, true, some 1, 0, false, 1, 0, 0, 0, 0, false, none, -1, true, 16⟩

/-- A controller in the playing state with the virtual clock running from
a paused-at time of 2 seconds. -/
def playingState : ControllerState :=
  ⟨some ⟨2, false⟩, tl10, tl10, true, some 1, 2, true, 1, 0, 0, 0, 2, true, none, -1, true, 16⟩

/-- Clamping into the interval from 0 to d, written as the source writes
it, agrees with the form used by the claims once d is nonnegative. -/
lemma clamp_max_min (x d : ℚ) (hd : 0 ≤ d) : max 0 (min x d) = min (max x 0) d := by
  rcases le_total x 0 with hx | hx
  · have h1 : max x 0 = 0 := max_eq_right hx
    have h2 : min x d ≤ 0 := le_trans (min_le_left x d) hx
    rw [h1, min_eq_left hd, max_eq_left h2]
  · rw [max_eq_left hx, max_eq_right (le_min hx hd)]

/-- updateVideoPositionFromVirtualTime only writes to the real element:
every controller field other than the video handle is unchanged, and the
attachment status of the video handle itself is unchanged. -/
lemma updateVideoPosition_preserves (s : ControllerState) :
    (updateVideoPositionFromVirtualTime s).currentVirtualTime = s.currentVirtualTime ∧
    (updateVideoPositionFromVirtualTime s).timeline = s.timeline ∧
    (updateVideoPositionFromVirtualTime s).isPlaying = s.isPlaying ∧
    (updateVideoPositionFromVirtualTime s).isVirtualTimeRunning = s.isVirtualTimeRunning ∧
    (updateVideoPositionFromVirtualTime s).virtualTimePausedAt = s.virtualTimePausedAt ∧
    (updateVideoPositionFromVirtualTime s).virtualTimeStartTimestamp = s.virtualTimeStartTimestamp ∧
    (updateVideoPositionFromVirtualTime s).playbackRate = s.playbackRate ∧
    (updateVideoPositionFromVirtualTime s).lastFrameTime = s.lastFrameTime ∧
    (updateVideoPositionFromVirtualTime s).frameCount = s.frameCount ∧
    (updateVideoPositionFromVirtualTime s).enableFramePrecision = s.enableFramePrecision ∧
    (updateVideoPositionFromVirtualTime s).frameProcessingDebounceMs = s.frameProcessingDebounceMs ∧
    (updateVideoPositionFromVirtualTime s).currentActiveSegment = s.currentActiveSegment ∧
    (updateVideoPositionFromVirtualTime s).segTimeline = s.segTimeline ∧
    (updateVideoPositionFromVirtualTime s).video.isSome = s.video.isSome := by
  unfold updateVideoPositionFromVirtualTime
  cases hv : s.video with
  | none => simp [hv]
  | some v =>
    cases hseg : s.currentActiveSegment with
    | none => dsimp only; split <;> simp [hseg, hv]
    | some seg => dsimp only; split <;> split <;> simp [hseg, hv]

/-- updateContinuousVirtualTime only writes the current virtual time. -/
lemma updateContinuous_preserves (s : ControllerState) (now : ℚ) :
    (updateContinuousVirtualTime s now).video = s.video ∧
    (updateContinuousVirtualTime s now).timeline = s.timeline ∧
    (updateContinuousVirtualTime s now).isPlaying = s.isPlaying ∧
    (updateContinuousVirtualTime s now).isVirtualTimeRunning = s.isVirtualTimeRunning ∧
    (updateContinuousVirtualTime s now).virtualTimePausedAt = s.virtualTimePausedAt ∧
    (updateContinuousVirtualTime s now).virtualTimeStartTimestamp = s.virtualTimeStartTimestamp ∧
    (updateContinuousVirtualTime s now).playbackRate = s.playbackRate ∧
    (updateContinuousVirtualTime s now).lastFrameTime = s.lastFrameTime ∧
    (updateContinuousVirtualTime s now).frameCount = s.frameCount ∧
    (updateContinuousVirtualTime s now).enableFramePrecision = s.enableFramePrecision ∧
    (updateContinuousVirtualTime s now).frameProcessingDebounceMs = s.frameProcessingDebounceMs ∧
    (updateContinuousVirtualTime s now).currentActiveSegment = s.currentActiveSegment ∧
    (updateContinuousVirtualTime s now).segTimeline = s.segTimeline := by
  unfold updateContinuousVirtualTime
  split <;> simp

/-- The wall-clock formula computed by updateContinuousVirtualTime while
the virtual clock is running and playback is active. -/
lemma updateContinuous_cvt (s : ControllerState) (now : ℚ)
    (hrun : s.isVirtualTimeRunning = true) (hplay : s.isPlaying = true) :
    (updateContinuousVirtualTime s now).currentVirtualTime =
      min (s.virtualTimePausedAt + ((now - s.virtualTimeStartTimestamp) / 1000) * s.playbackRate)
        (getDuration s) := by
  unfold updateContinuousVirtualTime
  simp [hrun, hplay]

/-- pauseAtEnd sets the virtual time to the duration and leaves the
timeline alone. -/
lemma pauseAtEnd_char (s : ControllerState) (v : VideoState) (hv : s.video = some v) :
    (pauseAtEnd s).1.currentVirtualTime = getDuration s ∧
    (pauseAtEnd s).1.timeline = s.timeline := by
  unfold pauseAtEnd pauseVirtualTimeProgression
  rw [hv]
  dsimp only
  split <;> simp [getDuration]

/-- C1.  The repository test (src/unnamed/part_002, seek queue test)
issues seek(3), seek(5), seek(7) in quick succession and expects the
first two returned promises to reject with a Seek cancelled error while
the third resolves with virtual time 7.  The shipped seek of
src/unnamed/part_003 is a synchronous void method with no request queue:
evaluated on exactly that input burst, every call returns successfully
(no request ever carries a cancellation signal) and the controller is
simply left at virtual time 7. -/
theorem seek_has_no_cancellation_signal :
    runIsOk (seekRun attachedState [(3, 100), (5, 101), (7, 102)]) = true ∧
    finalVirtualTime (seekRun attachedState [(3, 100), (5, 101), (7, 102)]) = 7 := by
  constructor <;> decide

/-- C2 counterexample.  Calling seek on a controller with no attached
video element does not fail: it returns successfully, emits no
notification, and leaves the state untouched, refuting the claim that
both play and seek surface a synchronous error when no video is
attached. -/
theorem seek_detached_returns_ok_counterexample :
    seek detachedState 5 0 = Except.ok (detachedState, []) := by
  rfl

/-- C2 (amended).  With no attached video element, play fails
immediately and synchronously with a Video-not-attached error and the
state is untouched, while seek is silently ignored: it returns without
an error, emits no notification, and leaves the state unchanged. -/
theorem play_throws_and_seek_silent_when_detached (s : ControllerState)
    (t now nowPlay : ℚ) (h : s.video = none) :
    play s nowPlay = Except.error "Video not attached" ∧
    seek s t now = Except.ok (s, []) := by
  constructor
  · unfold play; rw [h]
  · unfold seek; rw [h]

/-- C2 witness: the amended behaviour evaluated on a concrete detached
controller. -/
theorem play_throws_and_seek_silent_when_detached_witness :
    play detachedState 3 = Except.error "Video not attached" ∧
    seek detachedState 7 0 = Except.ok (detachedState, []) :=
  play_throws_and_seek_silent_when_detached detachedState 7 0 3 rfl

/-- C3.  On a controller with an attached video and a timeline of
nonnegative duration, seek(x) leaves the controller at the clamped
virtual time min(max(x,0), duration), leaves the duration alone, and
synchronously notifies the seek, time-update and overlay-sync
subscribers with exactly that clamped value. -/
theorem seek_clamps_and_notifies (s : ControllerState) (x now : ℚ)
    (hv : s.video.isSome = true) (hd : 0 ≤ getDuration s) :
    getCurrentTime (seekState s x now) = min (max x 0) (getDuration s) ∧
    getDuration (seekState s x now) = getDuration s ∧
    seekEvents s x now =
      [VPEvent.seeked (min (max x 0) (getDuration s)),
       VPEvent.timeUpdate (min (max x 0) (getDuration s)),
       VPEvent.motionTextSeek (min (max x 0) (getDuration s))] := by
  cases hvv : s.video with
  | none => rw [hvv] at hv; simp at hv
  | some v =>
    have hc := clamp_max_min x (getDuration s) hd
    unfold seekState seekEvents seek
    rw [hvv]
    dsimp only
    refine ⟨?_, ?_, ?_⟩
    · unfold getCurrentTime
      rw [(updateVideoPosition_preserves _).1, ← hc]
      split <;> rfl
    · unfold getDuration
      rw [(updateVideoPosition_preserves _).2.1]
      split <;> rfl
    · rw [hc]

/-- C3 witness: seeking to -5 on the attached 10-second controller lands
on virtual time 0 with the matching notifications. -/
theorem seek_clamps_and_notifies_witness :
    ((0:ℚ) ≤ getDuration attachedState ∧
      min (max (-5) 0) (getDuration attachedState) = 0) ∧
    getCurrentTime (seekState attachedState (-5) 0) =
      min (max (-5) 0) (getDuration attachedState) :=
  ⟨⟨by decide, by decide⟩,
   (seek_clamps_and_notifies attachedState (-5) 0 rfl (by decide)).1⟩

/-- Every subscriber in the registry is invoked by a guarded fan-out
round, in registration order, whatever subset of them throws. -/
lemma guardedNotify_invokes_all {κ α : Type} (beh : κ → α → Except String Unit) (x : α) :
    ∀ cbs : List κ, (guardedNotify beh x cbs).1 = cbs := by
  intro cbs
  induction cbs with
  | nil => rfl
  | cons cb rest ih =>
    unfold guardedNotify
    cases h : beh cb x <;> simp [h, ih]

/-- The guarded fan-out catches exactly the exceptions of the throwing
subscribers, in order, instead of propagating any of them. -/
lemma guardedNotify_logs_exactly {κ α : Type} (beh : κ → α → Except String Unit) (x : α) :
    ∀ cbs : List κ, (guardedNotify beh x cbs).2 =
      cbs.filterMap (fun cb =>
        match beh cb x with
        | Except.ok _ => none
        | Except.error e => some e) := by
  intro cbs
  induction cbs with
  | nil => rfl
  | cons cb rest ih =>
    unfold guardedNotify
    cases h : beh cb x <;> simp [h, ih]

/-- C8.  For every registry of the controller (frame, play, pause, stop,
seek, time-update, overlay-sync and timeline-change) and every behaviour
of the subscribers, a notification round invokes every subscriber even
when arbitrary subsets of them throw: the exceptions are caught
per-callback into the log (last conjunct) and the round always returns
normally. -/
theorem subscriber_exception_isolation {κ : Type} (cbs : List κ)
    (behF : κ → VirtualFrameData → Except String Unit)
    (behU : κ → Unit → Except String Unit)
    (behQ : κ → ℚ → Except String Unit)
    (behL : κ → VirtualTimeline → Except String Unit)
    (fd : VirtualFrameData) (t : ℚ) (tl : VirtualTimeline) :
    (notifyFrameCallbacks cbs behF fd).1 = cbs ∧
    (notifyPlayCallbacks cbs behU).1 = cbs ∧
    (notifyPauseCallbacks cbs behU).1 = cbs ∧
    (notifyStopCallbacks cbs behU).1 = cbs ∧
    (notifySeekCallbacks cbs behQ t).1 = cbs ∧
    (notifyTimeUpdateCallbacks cbs behQ t).1 = cbs ∧
    (notifyMotionTextSeekCallbacks cbs behQ t).1 = cbs ∧
    (notifyTimelineChangeCallbacks cbs behL tl).1 = cbs ∧
    (notifyFrameCallbacks cbs behF fd).2 =
      cbs.filterMap (fun cb =>
        match behF cb fd with
        | Except.ok _ => none
        | Except.error e => some e) :=
  ⟨guardedNotify_invokes_all behF fd cbs,
   guardedNotify_invokes_all behU () cbs,
   guardedNotify_invokes_all behU () cbs,
   guardedNotify_invokes_all behU () cbs,
   guardedNotify_invokes_all behQ t cbs,
   guardedNotify_invokes_all behQ t cbs,
   guardedNotify_invokes_all behQ t cbs,
   guardedNotify_invokes_all behL tl cbs,
   guardedNotify_logs_exactly behF fd cbs⟩

/-- C9.  detachVideo drops the video reference and stops the frame loop
before returning, and afterwards neither frame-delivery mechanism has
any effect: a stale per-video-frame callback and a stale
requestAnimationFrame callback both leave the detached state untouched,
emit no subscriber notification, and the fallback does not
re-schedule. -/
theorem detach_stops_frame_loop (s : ControllerState) (now timestamp : ℚ) :
    (detachVideo s).video = none ∧
    (s.video.isSome = true → (detachVideo s).isRVFCActive = false) ∧
    handleVideoFrame (detachVideo s) now = (detachVideo s, []) ∧
    rafCallbackStep (detachVideo s) timestamp = (detachVideo s, [], false) := by
  cases hv : s.video with
  | none => simp [detachVideo, stopRVFC, handleVideoFrame, rafCallbackStep, hv]
  | some v => simp [detachVideo, stopRVFC, handleVideoFrame, rafCallbackStep, hv]

/-- C9 witness: detaching the concrete attached controller stops the
loop and a stale frame afterwards has no effect. -/
theorem detach_stops_frame_loop_witness :
    (detachVideo attachedState).isRVFCActive = false ∧
    handleVideoFrame (detachVideo attachedState) 50 = (detachVideo attachedState, []) :=
  ⟨(detach_stops_frame_loop attachedState 50 60).2.1 rfl,
   (detach_stops_frame_loop attachedState 50 60).2.2.1⟩

/-- Two segments related by range disjointness cannot both contain the
same virtual time. -/
lemma segContains_disjoint {a b : VirtualSegment} {t : ℚ} (hR : disjointRanges a b)
    (ha : segContains a t = true) (hb : segContains b t = true) : False := by
  unfold segContains at ha hb
  simp only [Bool.and_eq_true, decide_eq_true_eq] at ha hb
  rcases ha with ⟨⟨hae, has⟩, hal⟩
  rcases hb with ⟨⟨hbe, hbs⟩, hbl⟩
  rcases hR hae hbe with h | h
  · exact absurd (lt_of_lt_of_le hal (le_trans h hbs)) (lt_irrefl t)
  · exact absurd (lt_of_lt_of_le hbl (le_trans h has)) (lt_irrefl t)

/-- In a list that is pairwise related by a relation under which at most
one element can satisfy the predicate, find? returns exactly the member
that satisfies it. -/
lemma find_eq_of_pairwise {α : Type} (R : α → α → Prop) (p : α → Bool)
    (hex : ∀ a b, R a b → p a = true → p b = true → False) :
    ∀ l : List α, l.Pairwise R → ∀ x, x ∈ l → p x = true → l.find? p = some x := by
  intro l
  induction l with
  | nil => intro _ x hx _; exact absurd hx (List.not_mem_nil x)
  | cons a tl ih =>
    intro hpw x hx hpx
    rcases List.pairwise_cons.mp hpw with ⟨ha, htl⟩
    by_cases hpa : p a = true
    · have hxa : x = a := by
        rcases List.mem_cons.mp hx with h | h
        · exact h
        · exact (hex a x (ha x h) hpa hpx).elim
      rw [hxa]
      exact List.find?_cons_of_pos _ hpa
    · rcases List.mem_cons.mp hx with h | h
      · exact absurd (h ▸ hpx) hpa
      · rw [List.find?_cons_of_neg _ hpa]
        exact ih htl x h hpx

/-- C4.  On a well-formed timeline with pairwise disjoint enabled
segments, a virtual time inside the half-open range of an enabled
segment maps to that segment by offset: realStartTime plus the distance
from virtualStartTime; negative times, times beyond the duration, and
times covered by no enabled segment all map to 0 without throwing. -/
theorem virtualToReal_mapping (tl : VirtualTimeline) (t : ℚ) :
    (WellFormedTimeline tl → EnabledDisjoint tl →
      ∀ seg, seg ∈ tl.segments → seg.isEnabled = true →
        seg.virtualStartTime ≤ t → t < seg.virtualEndTime →
        virtualToReal tl t = seg.realStartTime + (t - seg.virtualStartTime)) ∧
    (t < 0 → virtualToReal tl t = 0) ∧
    (tl.duration < t → virtualToReal tl t = 0) ∧
    ((∀ seg, seg ∈ tl.segments → segContains seg t = false) → virtualToReal tl t = 0) := by
  refine ⟨?_, ?_, ?_, ?_⟩
  · intro hwf hdisj seg hmem hen hs hl
    have hps : segContains seg t = true := by
      unfold segContains
      simp [hen, hs, hl]
    have hfind : tl.segments.find? (fun sg => segContains sg t) = some seg :=
      find_eq_of_pairwise disjointRanges (fun sg => segContains sg t)
        (fun a b hab hpa hpb => segContains_disjoint hab hpa hpb)
        tl.segments hdisj seg hmem hps
    have hbounds := hwf.2 seg hmem hen
    have hnotneg : ¬ t < 0 := not_lt.mpr (le_trans hbounds.1 hs)
    have hnotgt : ¬ tl.duration < t :=
      not_lt.mpr (le_of_lt (lt_of_lt_of_le hl hbounds.2.2.1))
    unfold virtualToReal
    rw [if_neg (not_or.mpr ⟨hnotneg, hnotgt⟩), hfind]
  · intro h
    unfold virtualToReal
    rw [if_pos (Or.inl h)]
  · intro h
    unfold virtualToReal
    rw [if_pos (Or.inr h)]
  · intro h
    unfold virtualToReal
    by_cases hg : t < 0 ∨ tl.duration < t
    · rw [if_pos hg]
    · rw [if_neg hg]
      have hnone : tl.segments.find? (fun sg => segContains sg t) = none :=
        List.find?_eq_none.mpr (fun x hx => by simp [h x hx])
      rw [hnone]

/-- C4 witness: on the two-segment gap timeline, the boundary time 5
maps into the second segment at real time 10, the mid-segment time 7.5
maps to real 12.5, and a negative time maps to 0. -/
theorem virtualToReal_mapping_witness :
    virtualToReal tlGap 5 = segB.realStartTime + (5 - segB.virtualStartTime) ∧
    virtualToReal tlGap 5 = 10 ∧
    virtualToReal tlGap (15/2) = 25/2 ∧
    virtualToReal tlGap (-1) = 0 :=
  ⟨(virtualToReal_mapping tlGap 5).1
      (by norm_num [WellFormedTimeline, tlGap, segA, segB]) (by decide) segB (by decide) rfl
      (by decide) (by decide),
   by norm_num [virtualToReal, tlGap, segA, segB, segContains, List.find?],
   by norm_num [virtualToReal, tlGap, segA, segB, segContains, List.find?],
   (virtualToReal_mapping tlGap (-1)).2.1 (by decide)⟩

/-- C5.  Active-segment lookup is decided by the half-open condition:
whatever segment the lookup returns contains the time with
virtualStartTime at most t and t strictly below virtualEndTime, so the
returned segment never has virtualEndTime equal to t; and under range
disjointness, a time equal to an enabled segment's virtualStartTime
(and below its end) is assigned to exactly that segment. -/
theorem boundary_belongs_to_next_segment (tl : VirtualTimeline) (t : ℚ) :
    (∀ r, findActiveSegmentAtVirtualTime tl t = some r →
      r.isEnabled = true ∧ r.virtualStartTime ≤ t ∧ t < r.virtualEndTime ∧
      r.virtualEndTime ≠ t) ∧
    (EnabledDisjoint tl → ∀ seg, seg ∈ tl.segments → seg.isEnabled = true →
      seg.virtualStartTime = t → t < seg.virtualEndTime →
      findActiveSegmentAtVirtualTime tl t = some seg) := by
  constructor
  · intro r hr
    unfold findActiveSegmentAtVirtualTime at hr
    have hp := List.find?_some hr
    unfold segContains at hp
    simp only [Bool.and_eq_true, decide_eq_true_eq] at hp
    exact ⟨hp.1.1, hp.1.2, hp.2, ne_of_gt hp.2⟩
  · intro hdisj seg hmem hen hstart hlt
    unfold findActiveSegmentAtVirtualTime
    apply find_eq_of_pairwise disjointRanges (fun sg => segContains sg t)
      (fun a b hab hpa hpb => segContains_disjoint hab hpa hpb)
      tl.segments hdisj seg hmem
    unfold segContains
    simp [hen, hstart, hlt]

/-- C5 witness: on the two-segment gap timeline the boundary time 5 is
assigned to the segment starting at 5, whose end time is not 5. -/
theorem boundary_belongs_to_next_segment_witness :
    findActiveSegmentAtVirtualTime tlGap 5 = some segB ∧ segB.virtualEndTime ≠ 5 := by
  have h2 := (boundary_belongs_to_next_segment tlGap 5).2 (by decide) segB (by decide)
    rfl rfl (by decide)
  exact ⟨h2, ((boundary_belongs_to_next_segment tlGap 5).1 segB h2).2.2.2⟩

/-- Replacing the real-element clock changes no controller field. -/
lemma setVideoClock_preserves (s : ControllerState) (t : ℚ) :
    (setVideoClock s t).isVirtualTimeRunning = s.isVirtualTimeRunning ∧
    (setVideoClock s t).isPlaying = s.isPlaying ∧
    (setVideoClock s t).virtualTimePausedAt = s.virtualTimePausedAt ∧
    (setVideoClock s t).virtualTimeStartTimestamp = s.virtualTimeStartTimestamp ∧
    (setVideoClock s t).playbackRate = s.playbackRate ∧
    (setVideoClock s t).timeline = s.timeline ∧
    (setVideoClock s t).currentVirtualTime = s.currentVirtualTime := by
  unfold setVideoClock
  cases s.video <;> simp

/-- C6.  While playing with the virtual clock running, the per-frame
update computes the virtual time solely as pausedAt plus elapsed wall
time times the playback rate, clamped above by the duration: the result
is unchanged under arbitrary replacement of the real-element clock.
Moreover play records the wall-clock start reference and pausedAt at the
moment it is issued, and a seek during playback re-bases them to the
clamped seek target. -/
theorem virtual_clock_from_wall_clock (s : ControllerState) (now t x : ℚ) :
    (s.isVirtualTimeRunning = true → s.isPlaying = true →
      (updateContinuousVirtualTime s now).currentVirtualTime =
        min (s.virtualTimePausedAt +
          ((now - s.virtualTimeStartTimestamp) / 1000) * s.playbackRate) (getDuration s) ∧
      (updateContinuousVirtualTime (setVideoClock s t) now).currentVirtualTime =
        (updateContinuousVirtualTime s now).currentVirtualTime) ∧
    (∀ s1 evs, play s now = Except.ok (s1, evs) →
      s1.virtualTimeStartTimestamp = now ∧ s1.virtualTimePausedAt = s.currentVirtualTime) ∧
    (s.isVirtualTimeRunning = true → s.video.isSome = true →
      (seekState s x now).virtualTimeStartTimestamp = now ∧
      (seekState s x now).virtualTimePausedAt = (seekState s x now).currentVirtualTime) := by
  refine ⟨?_, ?_, ?_⟩
  · intro hrun hplay
    have hp := setVideoClock_preserves s t
    constructor
    · exact updateContinuous_cvt s now hrun hplay
    · rw [updateContinuous_cvt s now hrun hplay,
          updateContinuous_cvt (setVideoClock s t) now (hp.1.trans hrun) (hp.2.1.trans hplay),
          hp.2.2.1, hp.2.2.2.1, hp.2.2.2.2.1]
      unfold getDuration
      rw [hp.2.2.2.2.2.1]
  · intro s1 evs hps
    cases hv : s.video with
    | none =>
      unfold play at hps
      rw [hv] at hps
      simp at hps
    | some v =>
      unfold play at hps
      rw [hv] at hps
      simp only [Except.ok.injEq, Prod.mk.injEq] at hps
      rcases hps with ⟨h1, _⟩
      subst h1
      exact ⟨rfl, rfl⟩
  · intro hrun hvs
    cases hv : s.video with
    | none => rw [hv] at hvs; simp at hvs
    | some v =>
      unfold seekState seek
      rw [hv]
      dsimp only
      simp only [hrun, if_true]
      refine ⟨?_, ?_⟩
      · rw [(updateVideoPosition_preserves _).2.2.2.2.2.1]
      · rw [(updateVideoPosition_preserves _).2.2.2.2.1, (updateVideoPosition_preserves _).1]

/-- C6 witness: the wall-clock formula and the seek re-basing evaluated
on a concrete playing controller. -/
theorem virtual_clock_from_wall_clock_witness :
    (updateContinuousVirtualTime playingState 1000).currentVirtualTime =
      min (playingState.virtualTimePausedAt +
        ((1000 - playingState.virtualTimeStartTimestamp) / 1000) * playingState.playbackRate)
        (getDuration playingState) ∧
    (seekState playingState 4 500).virtualTimePausedAt =
      (seekState playingState 4 500).currentVirtualTime :=
  ⟨((virtual_clock_from_wall_clock playingState 1000 3 4).1 rfl rfl).1,
   ((virtual_clock_from_wall_clock playingState 500 3 4).2.2 rfl rfl).2⟩

/-- A timeline whose only enabled segment covers virtual times 0 to 5
while the stored duration is 10: the transient shape right after a
rebuild, leaving virtual times 5 to 10 in a gap. -/
def tlHalf : VirtualTimeline :=
  ⟨[⟨"s1", 0, 5, 0, 5, true⟩], 10⟩

/-- A playing controller sitting on the half-covered timeline with the
virtual clock running from a paused-at time of 2 seconds. -/
def gapState : ControllerState :=
  ⟨some ⟨3, false⟩, tlHalf, tlHalf, true, some 1, 2, true, 1, 0, 0, 0, 2, true, none, -1, true, 16⟩

/-- Full characterization of one frame update landing in a gap: the
virtual clock advances to the wall-clock formula value, the real element
is paused, every clock-relevant field is untouched and the subscribers
are still notified with the new virtual time. -/
lemma handleVideoFrame_gap (s : ControllerState) (v : VideoState) (now : ℚ)
    (hv : s.video = some v)
    (hdeb : (s.enableFramePrecision &&
      decide (now - s.lastFrameTime < s.frameProcessingDebounceMs)) = false)
    (hrun : s.isVirtualTimeRunning = true) (hplay : s.isPlaying = true)
    (hf : s.virtualTimePausedAt +
      ((now - s.virtualTimeStartTimestamp) / 1000) * s.playbackRate < getDuration s)
    (hgap : findActiveSegmentAtVirtualTime s.timeline
      (s.virtualTimePausedAt +
        ((now - s.virtualTimeStartTimestamp) / 1000) * s.playbackRate) = none) :
    (handleVideoFrame s now).1.currentVirtualTime =
      s.virtualTimePausedAt + ((now - s.virtualTimeStartTimestamp) / 1000) * s.playbackRate ∧
    (handleVideoFrame s now).1.video = some ⟨v.currentTime, true⟩ ∧
    (handleVideoFrame s now).1.isPlaying = true ∧
    (handleVideoFrame s now).1.isVirtualTimeRunning = true ∧
    (handleVideoFrame s now).1.virtualTimePausedAt = s.virtualTimePausedAt ∧
    (handleVideoFrame s now).1.virtualTimeStartTimestamp = s.virtualTimeStartTimestamp ∧
    (handleVideoFrame s now).1.playbackRate = s.playbackRate ∧
    (handleVideoFrame s now).1.timeline = s.timeline ∧
    (handleVideoFrame s now).1.lastFrameTime = now ∧
    (handleVideoFrame s now).1.enableFramePrecision = s.enableFramePrecision ∧
    (handleVideoFrame s now).1.frameProcessingDebounceMs = s.frameProcessingDebounceMs ∧
    (handleVideoFrame s now).2 =
      [VPEvent.frame
        (s.virtualTimePausedAt + ((now - s.virtualTimeStartTimestamp) / 1000) * s.playbackRate)
        v.currentTime,
       VPEvent.timeUpdate
        (s.virtualTimePausedAt + ((now - s.virtualTimeStartTimestamp) / 1000) * s.playbackRate),
       VPEvent.motionTextSeek
        (s.virtualTimePausedAt + ((now - s.virtualTimeStartTimestamp) / 1000) * s.playbackRate)] := by
  obtain ⟨vc, vp⟩ := v
  have hu : updateContinuousVirtualTime s now =
      { s with currentVirtualTime := s.virtualTimePausedAt +
          ((now - s.virtualTimeStartTimestamp) / 1000) * s.playbackRate } := by
    unfold updateContinuousVirtualTime
    rw [hrun, hplay]
    simp [min_eq_left (le_of_lt hf)]
  unfold handleVideoFrame
  rw [hv]
  dsimp only
  rw [hdeb]
  simp only [Bool.false_eq_true, if_false]
  rw [hu]
  have hf2 : s.virtualTimePausedAt +
      ((now - s.virtualTimeStartTimestamp) / 1000) * s.playbackRate < s.timeline.duration := hf
  dsimp only [getDuration]
  rw [if_neg (not_le.mpr hf2)]
  rw [hgap]
  by_cases hseg : s.currentActiveSegment = none
  · rw [if_neg (by simp [hseg])]
    unfold updateVideoPositionFromVirtualTime
    rw [hv]
    dsimp only
    rw [hseg]
    dsimp only
    cases vp with
    | true => simp [videoClockOrZero, hv, hplay, hrun]
    | false => simp [videoClockOrZero, hplay, hrun]
  · rw [if_pos (by simp [Ne, hseg]; exact fun h => hseg h.symm)]
    unfold handleSegmentChange updateVideoPositionFromVirtualTime
    dsimp only
    rw [hv]
    dsimp only
    cases vp with
    | true => simp [videoClockOrZero, hv, hplay, hrun]
    | false => simp [videoClockOrZero, hplay, hrun]

/-- A frame update in the playing state can only move the virtual clock
above any bound that is below both the wall-clock formula value and the
duration (whether the frame ends in the normal path or in
pauseAtEnd). -/
lemma handleVideoFrame_cvt_lt (u : ControllerState) (w : VideoState) (now c : ℚ)
    (hv : u.video = some w)
    (hdeb : (u.enableFramePrecision &&
      decide (now - u.lastFrameTime < u.frameProcessingDebounceMs)) = false)
    (hrun : u.isVirtualTimeRunning = true) (hplay : u.isPlaying = true)
    (hc1 : c < u.virtualTimePausedAt +
      ((now - u.virtualTimeStartTimestamp) / 1000) * u.playbackRate)
    (hc2 : c < getDuration u) :
    c < (handleVideoFrame u now).1.currentVirtualTime := by
  have hcvt := updateContinuous_cvt u now hrun hplay
  have hpres := updateContinuous_preserves u now
  unfold handleVideoFrame
  rw [hv]
  dsimp only
  rw [hdeb]
  simp only [Bool.false_eq_true, if_false]
  by_cases hend : getDuration (updateContinuousVirtualTime u now) ≤
      (updateContinuousVirtualTime u now).currentVirtualTime
  · rw [if_pos hend]
    have hvid : (updateContinuousVirtualTime u now).video = some w := by
      rw [hpres.1, hv]
    rw [(pauseAtEnd_char _ w hvid).1]
    have hd : getDuration (updateContinuousVirtualTime u now) = getDuration u := by
      unfold getDuration; rw [hpres.2.1]
    rw [hd]
    exact hc2
  · rw [if_neg hend]
    have hlt : c < (updateContinuousVirtualTime u now).currentVirtualTime := by
      rw [hcvt]; exact lt_min hc1 hc2
    dsimp only
    rw [(updateVideoPosition_preserves _).1]
    split
    · simpa [handleSegmentChange] using hlt
    · exact hlt

/-- C7.  When a frame update lands in a gap (no enabled segment contains
the freshly computed virtual time), the real media element ends up
paused while the virtual clock is neither frozen nor reset: it advances
to the wall-clock formula value, the playing and running flags survive,
and the following frame advances the virtual clock strictly further, so
playback does not stall. -/
theorem gap_pauses_video_and_clock_advances (s : ControllerState) (v : VideoState)
    (now nowNext : ℚ) (hv : s.video = some v)
    (hdeb : (s.enableFramePrecision &&
      decide (now - s.lastFrameTime < s.frameProcessingDebounceMs)) = false)
    (hrun : s.isVirtualTimeRunning = true) (hplay : s.isPlaying = true)
    (hf : s.virtualTimePausedAt +
      ((now - s.virtualTimeStartTimestamp) / 1000) * s.playbackRate < getDuration s)
    (hgap : findActiveSegmentAtVirtualTime s.timeline
      (s.virtualTimePausedAt +
        ((now - s.virtualTimeStartTimestamp) / 1000) * s.playbackRate) = none)
    (hdeb2 : (s.enableFramePrecision &&
      decide (nowNext - now < s.frameProcessingDebounceMs)) = false)
    (hrate : 0 < s.playbackRate) (hnn : now < nowNext) :
    (handleVideoFrame s now).1.currentVirtualTime =
      s.virtualTimePausedAt + ((now - s.virtualTimeStartTimestamp) / 1000) * s.playbackRate ∧
    (handleVideoFrame s now).1.video = some ⟨v.currentTime, true⟩ ∧
    (handleVideoFrame s now).1.isPlaying = true ∧
    (handleVideoFrame s now).1.isVirtualTimeRunning = true ∧
    (handleVideoFrame s now).1.currentVirtualTime <
      (handleVideoFrame (handleVideoFrame s now).1 nowNext).1.currentVirtualTime := by
  obtain ⟨hcvt, hvid, hply, hrn, hpa, hts, hrt, htl, hlf, hep, hdm, hevs⟩ :=
    handleVideoFrame_gap s v now hv hdeb hrun hplay hf hgap
  refine ⟨hcvt, hvid, hply, hrn, ?_⟩
  have hstep : s.virtualTimePausedAt +
      ((now - s.virtualTimeStartTimestamp) / 1000) * s.playbackRate <
      s.virtualTimePausedAt +
      ((nowNext - s.virtualTimeStartTimestamp) / 1000) * s.playbackRate := by
    have h1 : now - s.virtualTimeStartTimestamp < nowNext - s.virtualTimeStartTimestamp :=
      sub_lt_sub_right hnn _
    have h2 : (now - s.virtualTimeStartTimestamp) / 1000 <
        (nowNext - s.virtualTimeStartTimestamp) / 1000 := by gcongr
    exact add_lt_add_left (mul_lt_mul_of_pos_right h2 hrate) _
  apply handleVideoFrame_cvt_lt (handleVideoFrame s now).1 ⟨v.currentTime, true⟩ nowNext
  · exact hvid
  · rw [hep, hlf, hdm]; exact hdeb2
  · exact hrn
  · exact hply
  · rw [hcvt, hpa, hts, hrt]; exact hstep
  · rw [hcvt]
    unfold getDuration
    rw [htl]
    exact hf

/-- C7 witness: a concrete playing controller whose timeline only covers
virtual times up to 5 but has duration 10 (a transient gap after a
rebuild); the frame at wall-clock 5000 computes virtual time 7, pauses
the video, and the frame at 6000 advances the clock further. -/
theorem gap_pauses_video_and_clock_advances_witness :
    (handleVideoFrame gapState 5000).1.currentVirtualTime = 7 ∧
    (handleVideoFrame gapState 5000).1.video = some ⟨(3 : ℚ), true⟩ ∧
    (handleVideoFrame gapState 5000).1.currentVirtualTime <
      (handleVideoFrame (handleVideoFrame gapState 5000).1 6000).1.currentVirtualTime := by
  have h := gap_pauses_video_and_clock_advances gapState ⟨3, false⟩ 5000 6000 rfl
    (by norm_num [gapState]) rfl rfl (by norm_num [gapState, getDuration, tlHalf])
    (by norm_num [gapState, tlHalf, findActiveSegmentAtVirtualTime, segContains, List.find?])
    (by norm_num [gapState]) (by norm_num [gapState]) (by norm_num)
  refine ⟨?_, h.2.1, h.2.2.2.2⟩
  rw [h.1]
  norm_num [gapState]

/-- seek preserves the virtual-time range invariant. -/
lemma seekState_inv (s : ControllerState) (x now : ℚ) (h : ControllerInv s) :
    ControllerInv (seekState s x now) := by
  cases hv : s.video with
  | none =>
    unfold seekState seek
    rw [hv]
    exact h
  | some v =>
    obtain ⟨h1, h2⟩ := h
    have hd : (0:ℚ) ≤ getDuration s := le_trans h1 h2
    unfold seekState seek
    rw [hv]
    dsimp only
    unfold ControllerInv getCurrentTime getDuration
    rw [(updateVideoPosition_preserves _).1, (updateVideoPosition_preserves _).2.1]
    constructor
    · split
      · exact le_max_left 0 _
      · exact le_max_left 0 _
    · split
      · exact max_le hd (min_le_right x _)
      · exact max_le hd (min_le_right x _)

/-- stop preserves the virtual-time range invariant. -/
lemma stop_inv (s : ControllerState) (h : ControllerInv s) :
    ControllerInv (stop s).1 := by
  unfold ControllerInv getCurrentTime getDuration at h ⊢
  unfold stop stopVirtualTimeProgression
  cases hv : s.video with
  | none => exact h
  | some v => exact ⟨le_refl 0, le_trans h.1 h.2⟩

/-- The per-frame wall-clock update preserves the virtual-time range
invariant when the clock inputs are sane (nonnegative paused-at time and
rate, monotonic timestamps). -/
lemma updateContinuous_inv (s : ControllerState) (now : ℚ) (h : ControllerInv s)
    (hpa : 0 ≤ s.virtualTimePausedAt) (hts : s.virtualTimeStartTimestamp ≤ now)
    (hr : 0 ≤ s.playbackRate) : ControllerInv (updateContinuousVirtualTime s now) := by
  unfold ControllerInv getCurrentTime getDuration at h ⊢
  unfold updateContinuousVirtualTime
  split
  · exact h
  · have hd : (0:ℚ) ≤ s.timeline.duration := le_trans h.1 h.2
    have h1 : (0:ℚ) ≤ now - s.virtualTimeStartTimestamp := sub_nonneg.mpr hts
    have h2 : (0:ℚ) ≤ (now - s.virtualTimeStartTimestamp) / 1000 :=
      div_nonneg h1 (by norm_num)
    have hform : (0:ℚ) ≤ s.virtualTimePausedAt +
        ((now - s.virtualTimeStartTimestamp) / 1000) * s.playbackRate :=
      add_nonneg hpa (mul_nonneg h2 hr)
    exact ⟨le_min hform hd, min_le_right _ _⟩

/-- pauseAtEnd preserves the virtual-time range invariant. -/
lemma pauseAtEnd_inv (s : ControllerState) (h : ControllerInv s) :
    ControllerInv (pauseAtEnd s).1 := by
  unfold ControllerInv getCurrentTime getDuration at h ⊢
  unfold pauseAtEnd pauseVirtualTimeProgression
  cases hv : s.video with
  | none => exact h
  | some v =>
    dsimp only
    split
    · exact ⟨le_trans h.1 h.2, le_refl _⟩
    · exact ⟨le_trans h.1 h.2, le_refl _⟩

/-- The whole frame handler preserves the virtual-time range
invariant. -/
lemma handleVideoFrame_inv (s : ControllerState) (now : ℚ) (h : ControllerInv s)
    (hpa : 0 ≤ s.virtualTimePausedAt) (hts : s.virtualTimeStartTimestamp ≤ now)
    (hr : 0 ≤ s.playbackRate) : ControllerInv (handleVideoFrame s now).1 := by
  unfold handleVideoFrame
  cases hv : s.video with
  | none => exact h
  | some v =>
    dsimp only
    split
    · exact h
    · have hinv1 := updateContinuous_inv s now h hpa hts hr
      split
      · exact pauseAtEnd_inv _ hinv1
      · unfold ControllerInv getCurrentTime getDuration at hinv1 ⊢
        dsimp only
        rw [(updateVideoPosition_preserves _).1, (updateVideoPosition_preserves _).2.1]
        split
        · exact hinv1
        · exact hinv1

/-- A valid inverse lookup lands inside the virtual range of a
well-formed timeline. -/
lemma toVirtual_valid_bounds (tl : VirtualTimeline) (r : ℚ) (hwf : WellFormedTimeline tl)
    (hvalid : (toVirtual tl r).isValid = true) :
    0 ≤ (toVirtual tl r).virtualTime ∧ (toVirtual tl r).virtualTime ≤ tl.duration := by
  unfold toVirtual at hvalid ⊢
  cases hfind : tl.segments.find? (fun seg =>
      seg.isEnabled && decide (seg.realStartTime ≤ r) && decide (r < seg.realEndTime)) with
  | none => rw [hfind] at hvalid; simp at hvalid
  | some seg =>
    dsimp only
    have hp := List.find?_some hfind
    simp only [Bool.and_eq_true, decide_eq_true_eq] at hp
    obtain ⟨⟨hen, hrs⟩, hre⟩ := hp
    have hmem := List.mem_of_find?_eq_some hfind
    obtain ⟨hv0, hvle, hvd, hrle, hdur⟩ := hwf.2 seg hmem hen
    constructor
    · exact add_nonneg hv0 (sub_nonneg.mpr hrs)
    · have h1 : r - seg.realStartTime < seg.realEndTime - seg.realStartTime :=
        sub_lt_sub_right hre _
      have h2 : r - seg.realStartTime < seg.virtualEndTime - seg.virtualStartTime :=
        hdur ▸ h1
      have h3 : seg.virtualStartTime + (r - seg.realStartTime) < seg.virtualEndTime := by
        linarith
      exact le_trans (le_of_lt h3) hvd

/-- moveToFirstValidSegment keeps the virtual time inside the range of a
well-formed timeline. -/
lemma moveToFirstValidSegment_inv (u : ControllerState) (h : ControllerInv u)
    (hwf : WellFormedTimeline u.timeline) : ControllerInv (moveToFirstValidSegment u).1 := by
  unfold moveToFirstValidSegment
  cases hv : u.video with
  | none => exact h
  | some v =>
    dsimp only
    cases hfs : firstEnabledByRealStart u.timeline.segments with
    | none => exact h
    | some fs =>
      dsimp only
      split
      case isTrue hvalid =>
        have hb := toVirtual_valid_bounds u.timeline fs.realStartTime hwf hvalid
        exact ⟨hb.1, hb.2⟩
      case isFalse hvalid => exact h

/-- handleTimelineUpdate preserves the virtual-time range invariant
relative to the controller timeline. -/
lemma handleTimelineUpdate_inv (s : ControllerState) (newTl : VirtualTimeline)
    (h : ControllerInv s) (hnd : 0 ≤ newTl.duration) (hwf : WellFormedTimeline s.timeline) :
    ControllerInv (handleTimelineUpdate s newTl).1 := by
  unfold ControllerInv getCurrentTime getDuration at h
  obtain ⟨h1, h2⟩ := h
  unfold handleTimelineUpdate
  dsimp only
  by_cases hc : newTl.duration < s.currentVirtualTime
  · rw [if_pos hc]
    have hA : (0:ℚ) ≤ min s.currentVirtualTime newTl.duration := le_min h1 hnd
    have hB : min s.currentVirtualTime newTl.duration ≤ s.timeline.duration :=
      le_trans (min_le_left _ _) h2
    unfold ControllerInv getCurrentTime getDuration
    dsimp only
    split
    · exact ⟨hA, hB⟩
    · split
      · exact ⟨hA, hB⟩
      · split
        · split
          · split
            · exact ⟨hA, hB⟩
            · exact ⟨hA, hB⟩
          · exact ⟨hA, hB⟩
        · exact moveToFirstValidSegment_inv _ ⟨hA, hB⟩ hwf
  · rw [if_neg hc]
    unfold ControllerInv getCurrentTime getDuration
    dsimp only
    split
    · exact ⟨h1, h2⟩
    · split
      · exact ⟨h1, h2⟩
      · split
        · split
          · split
            · exact ⟨h1, h2⟩
            · exact ⟨h1, h2⟩
          · exact ⟨h1, h2⟩
        · exact moveToFirstValidSegment_inv _ ⟨h1, h2⟩ hwf

/-- With no attached video, a timeline update leaves the virtual time at
or below the new duration (the pure clamp path). -/
lemma handleTimelineUpdate_clamp (s : ControllerState) (newTl : VirtualTimeline)
    (hv : s.video = none) :
    (handleTimelineUpdate s newTl).1.currentVirtualTime ≤ newTl.duration := by
  unfold handleTimelineUpdate
  dsimp only
  by_cases hc : newTl.duration < s.currentVirtualTime
  · rw [if_pos hc]
    dsimp only
    rw [hv]
    dsimp only
    exact min_le_right _ _
  · rw [if_neg hc]
    dsimp only
    rw [hv]
    dsimp only
    exact le_of_not_lt hc

/-- C10.  Every controller operation of the claim preserves the
invariant that the current virtual time lies between 0 and the total
duration: seek clamps into the range, stop resets to 0, the per-frame
wall-clock formula clamps above by the duration, reaching the end sets
the virtual time to exactly the duration, the whole frame handler
preserves the invariant, and a timeline rebuild clamps the current
virtual time down to the new duration. -/
theorem controller_time_invariant (s : ControllerState) (newTl : VirtualTimeline)
    (x now : ℚ) :
    (ControllerInv s → ControllerInv (seekState s x now)) ∧
    (ControllerInv s → ControllerInv (stop s).1) ∧
    (ControllerInv s → 0 ≤ s.virtualTimePausedAt → s.virtualTimeStartTimestamp ≤ now →
      0 ≤ s.playbackRate → ControllerInv (updateContinuousVirtualTime s now)) ∧
    (ControllerInv s → ControllerInv (pauseAtEnd s).1) ∧
    (s.video.isSome = true → (pauseAtEnd s).1.currentVirtualTime = getDuration s) ∧
    (ControllerInv s → 0 ≤ s.virtualTimePausedAt → s.virtualTimeStartTimestamp ≤ now →
      0 ≤ s.playbackRate → ControllerInv (handleVideoFrame s now).1) ∧
    (ControllerInv s → 0 ≤ newTl.duration → WellFormedTimeline s.timeline →
      ControllerInv (handleTimelineUpdate s newTl).1) ∧
    (s.video = none → (handleTimelineUpdate s newTl).1.currentVirtualTime ≤ newTl.duration) := by
  refine ⟨fun h => seekState_inv s x now h,
          fun h => stop_inv s h,
          fun h hpa hts hr => updateContinuous_inv s now h hpa hts hr,
          fun h => pauseAtEnd_inv s h,
          fun hv => ?_,
          fun h hpa hts hr => handleVideoFrame_inv s now h hpa hts hr,
          fun h hnd hwf => handleTimelineUpdate_inv s newTl h hnd hwf,
          fun hv => handleTimelineUpdate_clamp s newTl hv⟩
  obtain ⟨v, hv2⟩ := Option.isSome_iff_exists.mp hv
  exact (pauseAtEnd_char s v hv2).1

/-- C10 witness: the invariant checked across each operation on concrete
controllers, including a timeline rebuild that shrinks the duration from
10 to 2. -/
theorem controller_time_invariant_witness :
    ControllerInv (seekState attachedState 100 0) ∧
    ControllerInv (stop attachedState).1 ∧
    ControllerInv (updateContinuousVirtualTime playingState 1000) ∧
    ControllerInv (pauseAtEnd attachedState).1 ∧
    (pauseAtEnd attachedState).1.currentVirtualTime = getDuration attachedState ∧
    ControllerInv (handleVideoFrame playingState 1000).1 ∧
    ControllerInv (handleTimelineUpdate attachedState tlShrunk).1 ∧
    (handleTimelineUpdate detachedState tlShrunk).1.currentVirtualTime ≤ tlShrunk.duration := by
  have hA := controller_time_invariant attachedState tlShrunk 100 0
  have hP := controller_time_invariant playingState tlShrunk 100 1000
  have hD := controller_time_invariant detachedState tlShrunk 100 0
  exact ⟨hA.1 (by decide), hA.2.1 (by decide),
    hP.2.2.1 (by decide) (by decide) (by decide) (by decide),
    hA.2.2.2.1 (by decide), hA.2.2.2.2.1 rfl,
    hP.2.2.2.2.2.1 (by decide) (by decide) (by decide) (by decide),
    hA.2.2.2.2.2.2.1 (by decide) (by decide)
      (by norm_num [attachedState, WellFormedTimeline, tl10, seg0to10]),
    hD.2.2.2.2.2.2.2 rfl⟩

end ECG
